import Mathlib

/-!
# Running light (`src/c/running_light.c`)

A shallow embedding of the control loop of `running_light.c`: four LEDs on two
GPIO controllers are lit in rotation, four buttons (exit, double speed, half
speed, change direction) are polled once per cycle.

* C `int` values are `Int`; `/` and `%` of C are `Int.tdiv` and `Int.tmod`
  (truncation towards zero); results of `*` and `+` are reduced to 32 bits by
  `wrap32`.
* The hardware is explicit state: for each output handle the list of
  `(line offset, value)` pairs currently driven on its lines.  A
  `GPIOHANDLE_SET_LINE_VALUES_IOCTL` that succeeds drives line `j` of the handle
  with `values[j]`.
* What the environment does in one pass of the loop is a `CycleInput`: the
  return value of `poll`, the `revents` it leaves in `pfds`, the return values of
  the `read` calls, and whether SIGINT is delivered before the next test of
  `running`.
-/

namespace RunningLight

/-! ## Constants (lines 20-39) -/

/-- Line offset of the first LED: `#define LED1 11`. -/
def LED1 : Nat := 11
/-- Line offset of the second LED: `#define LED2 14`. -/
def LED2 : Nat := 14
/-- Line offset of the third LED: `#define LED3 13`. -/
def LED3 : Nat := 13
/-- Line offset of the fourth LED: `#define LED4 4`. -/
def LED4 : Nat := 4

/-- Timing constant `#define INITIAL_DELAY 500000` (microseconds). -/
def INITIAL_DELAY : Int := 500000
/-- Timing constant `#define MIN_DELAY 31250` (microseconds). -/
def MIN_DELAY : Int := 31250
/-- Timing constant `#define MAX_DELAY 500000` (microseconds). -/
def MAX_DELAY : Int := 500000

/-- The event bit `POLLIN` of `<poll.h>` (0x001 on Linux). -/
def POLLIN : Nat := 1

/-- Reduction of an integer to the range of a 32-bit two's complement `int`. -/
def wrap32 (x : Int) : Int := (x + 2147483648) % 4294967296 - 2147483648

/-! ## Output handles -/

/-- The part of `struct gpiohandle_request` that `cfg_gpio_output` fills in. -/
structure Handle where
  lineoffsets : List Nat
  lines : Nat
  deriving DecidableEq, Repr

/-- Function `cfg_gpio_output` (lines 53-67), for a line-handle request that succeeds:
`lineoffsets[i] = pins[i]` for `i < pin_count`, `lines = pin_count`. -/
def cfg_gpio_output (pins : List Nat) (pin_count : Nat) : Handle :=
  { lineoffsets := (List.range pin_count).map (fun i => pins.getD i 0)
    lines := pin_count }

/-- The array `int leds_chip1[] = {LED1};`. -/
def leds_chip1 : List Nat := [LED1]
/-- The array `int leds_chip3[] = {LED2, LED3, LED4};`. -/
def leds_chip3 : List Nat := [LED2, LED3, LED4]

/-- The handle `req_chip1` after `cfg_gpio_output(chip1_fd, &req_chip1, leds_chip1, 1)`. -/
def req_chip1 : Handle := cfg_gpio_output leds_chip1 1
/-- The handle `req_chip3` after `cfg_gpio_output(chip3_fd, &req_chip3, leds_chip3, 3)`. -/
def req_chip3 : Handle := cfg_gpio_output leds_chip3 3

/-- A successful `ioctl(req->fd, GPIOHANDLE_SET_LINE_VALUES_IOCTL, &data)`:
line `j` of the handle is driven with `data.values[j]`, for every `j < lines`.
The result is the list of `(line offset, value)` pairs of the handle. -/
def set_line_values (req : Handle) (values : Nat → Nat) : List (Nat × Nat) :=
  (List.range req.lines).map (fun j => (req.lineoffsets.getD j 0, values j))

/-- The assignment `values[i] = x` on a `struct gpiohandle_data`. -/
def setValue (values : Nat → Nat) (i x : Nat) : Nat → Nat :=
  fun j => if j = i then x else values j

/-- The initialiser `struct gpiohandle_data d = {0}`. -/
def zeroData : Nat → Nat := fun _ => 0

/-! ## Program state -/

/-- The globals of the program (lines 42-45), the locals of `main` that live
across cycles (lines 143-145) and the values driven on the LED lines. -/
@[ext]
structure State where
  /-- Global `volatile int running`. -/
  running : Int
  /-- Global `volatile int stop`. -/
  stop : Int
  /-- Global `volatile int direction`. -/
  direction : Int
  /-- Global `volatile int delay`. -/
  delay : Int
  /-- Local `int current_led` of `main`. -/
  current_led : Int
  /-- Local buffer `data_chip1.values` of `main`. -/
  data_chip1 : Nat → Nat
  /-- Local buffer `data_chip3.values` of `main`. -/
  data_chip3 : Nat → Nat
  /-- The lines of `req_chip1`: `(offset, value)` pairs. -/
  chip1_out : List (Nat × Nat)
  /-- The lines of `req_chip3`: `(offset, value)` pairs. -/
  chip3_out : List (Nat × Nat)

/-- The state when the loop of `main` is first entered: the initialisers of
lines 42-45 and 143-145; the output lines were requested with default value 0. -/
def initState : State :=
  { running := 1
    stop := 0
    direction := 1
    delay := INITIAL_DELAY
    current_led := 0
    data_chip1 := zeroData
    data_chip3 := zeroData
    chip1_out := set_line_values req_chip1 zeroData
    chip3_out := set_line_values req_chip3 zeroData }

/-- What the environment does during one pass of the loop body. -/
structure CycleInput where
  /-- Return value of `poll(pfds, 4, 0)`. -/
  poll_ret : Int
  /-- The field `pfds[i].revents` after the call. -/
  revents : Nat → Nat
  /-- Return value of `read(pfds[i].fd, &event, sizeof(event))`; negative on
  failure. -/
  read_ret : Nat → Int
  /-- SIGINT is delivered during this pass (before `running` is tested again). -/
  sigint : Bool

/-! ## The code -/

/-- Function `handle_signal` (lines 48-50). -/
def handle_signal (s : State) : State := { s with running := 0 }

/-- Function `turn_off_leds` (lines 85-91): two zeroed local buffers, one set-values
call per handle. -/
def turn_off_leds (req1 req3 : Handle) (s : State) : State :=
  let data_chip1 := zeroData
  let data_chip3 := zeroData
  { s with
    chip1_out := set_line_values req1 data_chip1
    chip3_out := set_line_values req3 data_chip3 }

/-- The `switch (i)` of lines 154-175. -/
def button_case (i : Nat) (s : State) : State :=
  match i with
  | 0 => { s with running := 0 }
  | 1 => if s.delay > MIN_DELAY then { s with delay := Int.tdiv s.delay 2 } else s
  | 2 => if s.delay < MAX_DELAY then { s with delay := wrap32 (s.delay * 2) } else s
  | 3 => { s with direction := wrap32 (s.direction * -1) }
  | _ => s

/-- Body of the `for` loop of lines 150-177 for index `i`: when `POLLIN` is
set in `pfds[i].revents` the event is read, the value `read` returns is
discarded, and the switch runs. -/
def button_step (inp : CycleInput) (s : State) (i : Nat) : State :=
  if inp.revents i &&& POLLIN ≠ 0 then
    let _n := inp.read_ret i
    button_case i s
  else s

/-- Lines 149-178: `if (poll(pfds, 4, 0) > 0) for (i = 0; i < 4; i++) ...`. -/
def check_buttons (inp : CycleInput) (s : State) : State :=
  if inp.poll_ret > 0 then (List.range 4).foldl (button_step inp) s else s

/-- The array `int led_positions[] = {0, 1, 2, 3};`. -/
def led_positions : List Int := [0, 1, 2, 3]

/-- Lines 181-197: both handles are written with zeros, then the value of the
current LED is set to 1 in the buffer of its handle and that handle is written
again.  (`led_positions[current_led]` is read with `current_led` in `0..3`;
outside that range the C program has no defined behaviour and the model reads
0.) -/
def render (s : State) : State :=
  let d1 := setValue s.data_chip1 0 0
  let out1 := set_line_values req_chip1 d1
  let d3 := (List.range 3).foldl (fun d i => setValue d i 0) s.data_chip3
  let out3 := set_line_values req_chip3 d3
  let pos := led_positions.getD s.current_led.toNat 0
  if pos = 0 then
    let d1on := setValue d1 0 1
    { s with
      data_chip1 := d1on
      data_chip3 := d3
      chip1_out := set_line_values req_chip1 d1on
      chip3_out := out3 }
  else
    let d3on := setValue d3 (pos - 1).toNat 1
    { s with
      data_chip1 := d1
      data_chip3 := d3on
      chip1_out := out1
      chip3_out := set_line_values req_chip3 d3on }

/-- Line 203: `current_led = (current_led + direction + 4) % 4;`. -/
def advance (s : State) : State :=
  { s with
    current_led := Int.tmod (wrap32 (wrap32 (s.current_led + s.direction) + 4)) 4 }

/-- The state held during the `usleep` of a pass of the loop body that starts
in `s`: buttons checked, then either the render (line 200 sleeps) or
`turn_off_leds` (line 207 sleeps). -/
def sleepState (inp : CycleInput) (s : State) : State :=
  let s1 := check_buttons inp s
  if s1.stop = 0 then render s1 else turn_off_leds req_chip1 req_chip3 s1

/-- One pass of the body of `while (running)` (lines 148-208), followed by the
delivery of SIGINT if there is one. -/
def cycle (inp : CycleInput) (s : State) : State :=
  let s1 := check_buttons inp s
  let s2 := if s1.stop = 0 then advance (render s1)
            else turn_off_leds req_chip1 req_chip3 s1
  if inp.sigint then handle_signal s2 else s2

/-- The loop `while (running) ...` run on a finite list of cycle inputs: the
state at the loop test at which the loop exits, or the state reached when the
inputs are used up. -/
def runLoop : List CycleInput → State → State
  | [], s => s
  | inp :: rest, s => if s.running ≠ 0 then runLoop rest (cycle inp s) else s

/-- Function `main` from the first loop test on (lines 147-224): the loop, then
`turn_off_leds`.  `none` when the loop is still running after the given
inputs. -/
def mainFrom (inputs : List CycleInput) (s : State) : Option State :=
  let s1 := runLoop inputs s
  if s1.running = 0 then some (turn_off_leds req_chip1 req_chip3 s1) else none

/-! ## Observations and inputs used in the statements -/

/-- The values of LED1..LED4, in the order of the logical positions 0..3. -/
def ledValues (s : State) : List Nat := (s.chip1_out ++ s.chip3_out).map Prod.snd

/-- The line offsets behind `ledValues`. -/
def ledOffsets (s : State) : List Nat := (s.chip1_out ++ s.chip3_out).map Prod.fst

/-- The values in which exactly the LED of position `p` is on. -/
def oneHot (p : Int) : List Nat := (List.range 4).map (fun k => if (k : Int) = p then 1 else 0)

/-- Button `i` is found fired by the loop of lines 149-177. -/
def fired (inp : CycleInput) (i : Nat) : Prop :=
  inp.poll_ret > 0 ∧ inp.revents i &&& POLLIN ≠ 0

instance (inp : CycleInput) (i : Nat) : Decidable (fired inp i) := by
  unfold fired; infer_instance

/-- A poll result in which exactly the buttons of `bs` report `POLLIN`, every
read returns `sizeof(struct gpioevent_data)` and no signal arrives. -/
def pressed (bs : List Nat) : CycleInput :=
  { poll_ret := ((List.range 4).filter (fun i => decide (i ∈ bs))).length
    revents := fun i => if i ∈ bs then POLLIN else 0
    read_ret := fun _ => 16
    sigint := false }

/-- A pass of the loop without button events and without signal. -/
def noEvents : CycleInput := pressed []

/-- The batch `inp` with the event of button 0 removed. -/
def withoutExit (inp : CycleInput) : CycleInput :=
  { inp with revents := fun i => if i = 0 then 0 else inp.revents i }

/-! ## Definitions used by the proofs and by the statements -/

/-- The delays the program can hold: 500000 halved at most four times. -/
def DelayOk (d : Int) : Prop :=
  d = 500000 ∨ d = 250000 ∨ d = 125000 ∨ d = 62500 ∨ d = 31250

instance (d : Int) : Decidable (DelayOk d) := by
  unfold DelayOk; infer_instance

/-- The invariant of the loop: what holds of every state met at the loop test. -/
def Inv (s : State) : Prop :=
  DelayOk s.delay ∧ (s.direction = 1 ∨ s.direction = -1) ∧
  (0 ≤ s.current_led ∧ s.current_led ≤ 3) ∧ s.stop = 0

/-- The delay after `case 1` as a function of the delay before. -/
def halveDelay (d : Int) : Int := if d > MIN_DELAY then Int.tdiv d 2 else d

/-- The delay after `case 2` as a function of the delay before. -/
def doubleDelay (d : Int) : Int := if d < MAX_DELAY then wrap32 (d * 2) else d

/-- A poll result in which button `i` alone reports `POLLIN` and the read of
its event fails with -1. -/
def failedRead (i : Nat) : CycleInput :=
  { poll_ret := 1
    revents := fun j => if j = i then POLLIN else 0
    read_ret := fun _ => -1
    sigint := false }

/-- The batch `inp` in which every read succeeds (returns the 16 bytes of
`struct gpioevent_data`). -/
def readsOk (inp : CycleInput) : CycleInput :=
  { inp with read_ret := fun _ => 16 }

/-- A state with position `p` and direction `d`, otherwise the initial one. -/
def stateAt (p d : Int) : State := { initState with current_led := p, direction := d }

/-- A state with delay `d`, otherwise the initial one. -/
def withDelay (d : Int) : State := { initState with delay := d }

/-! ## Basic facts about the embedding -/

theorem wrap32_of_range (x : Int) (h1 : -2147483648 ≤ x) (h2 : x < 2147483648) :
    wrap32 x = x := by
  unfold wrap32
  omega

theorem check_buttons_unfold (inp : CycleInput) (s : State) :
    check_buttons inp s =
      if inp.poll_ret > 0 then
        button_step inp (button_step inp (button_step inp (button_step inp s 0) 1) 2) 3
      else s := rfl

/-- The fields a button never writes. -/
theorem button_case_frame (i : Nat) (s : State) :
    (button_case i s).stop = s.stop ∧ (button_case i s).current_led = s.current_led ∧
    (button_case i s).data_chip1 = s.data_chip1 ∧ (button_case i s).data_chip3 = s.data_chip3 ∧
    (button_case i s).chip1_out = s.chip1_out ∧ (button_case i s).chip3_out = s.chip3_out := by
  unfold button_case
  split <;> (try split) <;> simp

theorem button_step_frame (inp : CycleInput) (s : State) (i : Nat) :
    (button_step inp s i).stop = s.stop ∧ (button_step inp s i).current_led = s.current_led ∧
    (button_step inp s i).data_chip1 = s.data_chip1 ∧
    (button_step inp s i).data_chip3 = s.data_chip3 ∧
    (button_step inp s i).chip1_out = s.chip1_out ∧
    (button_step inp s i).chip3_out = s.chip3_out := by
  unfold button_step
  split
  · exact button_case_frame i s
  · simp

theorem check_buttons_frame (inp : CycleInput) (s : State) :
    (check_buttons inp s).stop = s.stop ∧ (check_buttons inp s).current_led = s.current_led ∧
    (check_buttons inp s).data_chip1 = s.data_chip1 ∧
    (check_buttons inp s).data_chip3 = s.data_chip3 ∧
    (check_buttons inp s).chip1_out = s.chip1_out ∧
    (check_buttons inp s).chip3_out = s.chip3_out := by
  rw [check_buttons_unfold]
  split
  · obtain ⟨a0, b0, c0, d0, e0, f0⟩ := button_step_frame inp s 0
    obtain ⟨a1, b1, c1, d1, e1, f1⟩ := button_step_frame inp (button_step inp s 0) 1
    obtain ⟨a2, b2, c2, d2, e2, f2⟩ :=
      button_step_frame inp (button_step inp (button_step inp s 0) 1) 2
    obtain ⟨a3, b3, c3, d3, e3, f3⟩ :=
      button_step_frame inp (button_step inp (button_step inp (button_step inp s 0) 1) 2) 3
    refine ⟨?_, ?_, ?_, ?_, ?_, ?_⟩
    · rw [a3, a2, a1, a0]
    · rw [b3, b2, b1, b0]
    · rw [c3, c2, c1, c0]
    · rw [d3, d2, d1, d0]
    · rw [e3, e2, e1, e0]
    · rw [f3, f2, f1, f0]
  · simp

theorem DelayOk.bounds {d : Int} (h : DelayOk d) : MIN_DELAY ≤ d ∧ d ≤ MAX_DELAY := by
  unfold MIN_DELAY MAX_DELAY
  rcases h with h | h | h | h | h <;> subst h <;> decide

theorem button_case_delayOk (i : Nat) (s : State) (h : DelayOk s.delay) :
    DelayOk (button_case i s).delay := by
  unfold button_case
  split
  · exact h
  · split
    · rename_i hgt
      rcases h with h | h | h | h | h <;> rw [h] at hgt ⊢ <;> first
        | (exfalso; revert hgt; decide)
        | (dsimp only; decide)
    · exact h
  · split
    · rename_i hlt
      rcases h with h | h | h | h | h <;> rw [h] at hlt ⊢ <;> first
        | (exfalso; revert hlt; decide)
        | (dsimp only; decide)
    · exact h
  · exact h
  · exact h

theorem button_case_direction (i : Nat) (s : State)
    (h : s.direction = 1 ∨ s.direction = -1) :
    (button_case i s).direction = 1 ∨ (button_case i s).direction = -1 := by
  unfold button_case
  split <;> (try split) <;> try exact h
  rcases h with h | h <;> simp only [h] <;> decide

theorem button_step_inv (inp : CycleInput) (s : State) (i : Nat) (h : Inv s) :
    Inv (button_step inp s i) := by
  obtain ⟨hd, hdir, hp, hs⟩ := h
  obtain ⟨a, b, -⟩ := button_step_frame inp s i
  refine ⟨?_, ?_, by rw [b]; exact hp, by rw [a]; exact hs⟩
  · unfold button_step
    split
    · exact button_case_delayOk i s hd
    · exact hd
  · unfold button_step
    split
    · exact button_case_direction i s hdir
    · exact hdir

theorem check_buttons_inv (inp : CycleInput) (s : State) (h : Inv s) :
    Inv (check_buttons inp s) := by
  rw [check_buttons_unfold]
  split
  · exact button_step_inv _ _ _ (button_step_inv _ _ _ (button_step_inv _ _ _
      (button_step_inv _ _ _ h)))
  · exact h

/-- The render writes the buffers and the lines only. -/
theorem render_frame (s : State) :
    (render s).running = s.running ∧ (render s).stop = s.stop ∧
    (render s).direction = s.direction ∧ (render s).delay = s.delay ∧
    (render s).current_led = s.current_led := by
  unfold render
  dsimp only
  split <;> exact ⟨rfl, rfl, rfl, rfl, rfl⟩

theorem led_cases {p : Int} (h : 0 ≤ p ∧ p ≤ 3) : p = 0 ∨ p = 1 ∨ p = 2 ∨ p = 3 := by
  omega

/-- The lines after the render, for a position in `0..3`. -/
theorem render_out (s : State) (hp : 0 ≤ s.current_led ∧ s.current_led ≤ 3) :
    (render s).chip1_out = [(LED1, if s.current_led = 0 then 1 else 0)] ∧
    (render s).chip3_out =
      [(LED2, if s.current_led = 1 then 1 else 0), (LED3, if s.current_led = 2 then 1 else 0),
       (LED4, if s.current_led = 3 then 1 else 0)] := by
  unfold render
  rcases led_cases hp with h | h | h | h <;> rw [h] <;> exact ⟨rfl, rfl⟩

/-- The buffers after the render, for a position in `0..3`. -/
theorem render_data (s : State) (hp : 0 ≤ s.current_led ∧ s.current_led ≤ 3) :
    (render s).data_chip1 = setValue s.data_chip1 0 (if s.current_led = 0 then 1 else 0) ∧
    (render s).data_chip3 =
      fun (j : Nat) => if j < 3 then (if (j : Int) + 1 = s.current_led then 1 else 0)
        else s.data_chip3 j := by
  unfold render
  rcases led_cases hp with h | h | h | h <;> rw [h] <;> constructor <;> funext j <;>
    rcases j with _ | _ | _ | j <;>
    simp [setValue, led_positions, List.range, List.range.loop] <;>
    (try rw [if_neg (by omega)])

theorem advance_range (s : State) (hp : 0 ≤ s.current_led ∧ s.current_led ≤ 3)
    (hd : s.direction = 1 ∨ s.direction = -1) :
    0 ≤ (advance s).current_led ∧ (advance s).current_led ≤ 3 := by
  unfold advance
  rcases led_cases hp with h | h | h | h <;> rcases hd with d | d <;> rw [h, d] <;>
    dsimp only <;> decide

theorem cycle_inv (inp : CycleInput) (s : State) (h : Inv s) : Inv (cycle inp s) := by
  have h1 := check_buttons_inv inp s h
  obtain ⟨hd, hdir, hp, hs⟩ := h1
  obtain ⟨r1, r2, r3, r4, r5⟩ := render_frame (check_buttons inp s)
  have h2 : Inv (advance (render (check_buttons inp s))) := by
    refine ⟨?_, ?_, ?_, ?_⟩
    · show DelayOk (render (check_buttons inp s)).delay
      rw [r4]; exact hd
    · show (render (check_buttons inp s)).direction = 1 ∨
        (render (check_buttons inp s)).direction = -1
      rw [r3]; exact hdir
    · exact advance_range _ (by rw [r5]; exact hp) (by rw [r3]; exact hdir)
    · show (render (check_buttons inp s)).stop = 0
      rw [r2]; exact hs
  unfold cycle
  dsimp only
  rw [if_pos hs]
  split
  · exact h2
  · exact h2

theorem initState_inv : Inv initState := by
  refine ⟨?_, ?_, ?_, ?_⟩ <;> decide

theorem runLoop_inv (inputs : List CycleInput) (s : State) (h : Inv s) :
    Inv (runLoop inputs s) := by
  induction inputs generalizing s with
  | nil => exact h
  | cons inp rest ih =>
    unfold runLoop
    split
    · exact ih _ (cycle_inv inp s h)
    · exact h

/-! ## Speed transitions -/

theorem button_case_one_delay (s : State) : (button_case 1 s).delay = halveDelay s.delay := by
  unfold button_case halveDelay
  dsimp only
  split <;> rfl

theorem button_case_two_delay (s : State) : (button_case 2 s).delay = doubleDelay s.delay := by
  unfold button_case doubleDelay
  dsimp only
  split <;> rfl

theorem iterate_button_case_one (k : Nat) (s : State) :
    ((button_case 1)^[k] s).delay = halveDelay^[k] s.delay := by
  induction k generalizing s with
  | zero => rfl
  | succ k ih =>
    rw [Function.iterate_succ_apply, Function.iterate_succ_apply, ih, button_case_one_delay]

theorem check_buttons_pressed_one (s : State) :
    check_buttons (pressed [1]) s = button_case 1 s := rfl

theorem button_case_one_running (s : State) : (button_case 1 s).running = s.running := by
  unfold button_case
  dsimp only
  split <;> rfl

theorem cycle_pressed_one (s : State) (hs : s.stop = 0) :
    (cycle (pressed [1]) s).delay = halveDelay s.delay ∧
    (cycle (pressed [1]) s).running = s.running ∧ (cycle (pressed [1]) s).stop = 0 := by
  have hstop : (button_case 1 s).stop = 0 := by rw [(button_case_frame 1 s).1]; exact hs
  obtain ⟨r1, r2, -, r4, -⟩ := render_frame (button_case 1 s)
  have hc : cycle (pressed [1]) s = advance (render (button_case 1 s)) := by
    unfold cycle
    rw [check_buttons_pressed_one]
    dsimp only
    rw [if_pos hstop]
    rfl
  rw [hc]
  refine ⟨?_, ?_, ?_⟩
  · show (render (button_case 1 s)).delay = _
    rw [r4, button_case_one_delay]
  · show (render (button_case 1 s)).running = _
    rw [r1, button_case_one_running]
  · show (render (button_case 1 s)).stop = _
    rw [r2, hstop]

theorem runLoop_speed_up (k : Nat) (s : State) (hr : s.running ≠ 0) (hs : s.stop = 0) :
    (runLoop (List.replicate k (pressed [1])) s).delay = halveDelay^[k] s.delay := by
  induction k generalizing s with
  | zero => rfl
  | succ k ih =>
    obtain ⟨c1, c2, c3⟩ := cycle_pressed_one s hs
    rw [List.replicate_succ, Function.iterate_succ_apply]
    unfold runLoop
    rw [if_pos hr, ih _ (by rw [c2]; exact hr) c3, c1]

theorem halveDelay_iterate_large (k : Nat) : halveDelay^[k + 4] 500000 = 31250 := by
  induction k with
  | zero => decide
  | succ k ih =>
    rw [show k + 1 + 4 = (k + 4) + 1 by omega, Function.iterate_succ_apply', ih]
    decide

theorem halveDelay_iterate (k : Nat) :
    halveDelay^[k] 500000 = max 31250 (500000 / 2 ^ k) := by
  rcases Nat.lt_or_ge k 5 with h | h
  · interval_cases k <;> decide
  · obtain ⟨j, rfl⟩ : ∃ j, k = j + 4 := ⟨k - 4, by omega⟩
    rw [halveDelay_iterate_large]
    have h32 : (32 : Int) ≤ 2 ^ (j + 4) := by
      have : (2 : Int) ^ (j + 4) = 2 ^ (j - 1) * 32 := by
        rw [show j + 4 = (j - 1) + 5 by omega, pow_add]; norm_num
      have hpos : (1 : Int) ≤ 2 ^ (j - 1) := one_le_pow₀ (by norm_num)
      rw [this]; nlinarith
    have hlt : (500000 : Int) / 2 ^ (j + 4) < 31250 :=
      Int.ediv_lt_of_lt_mul (by positivity) (by nlinarith)
    rw [max_eq_left (le_of_lt hlt)]

/-! ## The exit button and the end of the loop -/

theorem button_case_set_running (i : Nat) (hi : i ≠ 0) (s : State) :
    button_case i { s with running := 0 } = { button_case i s with running := 0 } := by
  unfold button_case
  split
  · exact absurd rfl hi
  · dsimp only
    split <;> rfl
  · dsimp only
    split <;> rfl
  · rfl
  · rfl

theorem button_case_running (i : Nat) (hi : i ≠ 0) (s : State) :
    (button_case i s).running = s.running := by
  unfold button_case
  split
  · exact absurd rfl hi
  · split <;> rfl
  · split <;> rfl
  · rfl
  · rfl

theorem button_step_set_running (inp : CycleInput) (i : Nat) (hi : i ≠ 0) (s : State) :
    button_step inp { s with running := 0 } i =
      { button_step (withoutExit inp) s i with running := 0 } := by
  unfold button_step withoutExit
  dsimp only
  rw [if_neg hi]
  split
  · exact button_case_set_running i hi s
  · rfl

theorem button_step_exit (inp : CycleInput) (s : State) (h : inp.revents 0 &&& POLLIN ≠ 0) :
    button_step inp s 0 = { s with running := 0 } := by
  unfold button_step
  rw [if_pos h]
  rfl

theorem button_step_withoutExit (inp : CycleInput) (s : State) :
    button_step (withoutExit inp) s 0 = s := by
  unfold button_step withoutExit
  dsimp only
  rw [if_pos rfl, if_neg (by decide)]

theorem check_buttons_exit (inp : CycleInput) (s : State) (h : fired inp 0) :
    check_buttons inp s = { check_buttons (withoutExit inp) s with running := 0 } := by
  have hw : (withoutExit inp).poll_ret > 0 := h.1
  rw [check_buttons_unfold, check_buttons_unfold, if_pos h.1, if_pos hw,
    button_step_exit inp s h.2, button_step_withoutExit,
    button_step_set_running inp 1 (by decide), button_step_set_running inp 2 (by decide),
    button_step_set_running inp 3 (by decide)]

theorem check_buttons_exit_running (inp : CycleInput) (s : State) (h : fired inp 0) :
    (check_buttons inp s).running = 0 := by
  rw [check_buttons_exit inp s h]

theorem advance_running (s : State) : (advance s).running = s.running := rfl

theorem cycle_exit_running (inp : CycleInput) (s : State)
    (h : fired inp 0 ∨ inp.sigint = true) : (cycle inp s).running = 0 := by
  unfold cycle
  dsimp only
  rcases hsig : inp.sigint with _ | _
  · have hf : fired inp 0 := by
      rcases h with h | h
      · exact h
      · rw [hsig] at h; exact absurd h (by decide)
    have hr := check_buttons_exit_running inp s hf
    rw [if_neg (by decide)]
    split
    · rw [advance_running, (render_frame _).1, hr]
    · exact hr
  · rfl

theorem runLoop_of_not_running (inputs : List CycleInput) (s : State) (h : s.running = 0) :
    runLoop inputs s = s := by
  cases inputs with
  | nil => rfl
  | cons inp rest =>
    unfold runLoop
    rw [if_neg (by rw [h]; decide)]

theorem runLoop_exits (inputs : List CycleInput) (s : State)
    (h : s.running = 0 ∨ ∃ inp ∈ inputs, fired inp 0 ∨ inp.sigint = true) :
    (runLoop inputs s).running = 0 := by
  induction inputs generalizing s with
  | nil =>
    rcases h with h | ⟨inp, hin, -⟩
    · exact h
    · exact absurd hin (List.not_mem_nil inp)
  | cons a rest ih =>
    by_cases hr : s.running = 0
    · rw [runLoop_of_not_running _ _ hr]; exact hr
    · unfold runLoop
      rw [if_pos hr]
      apply ih
      rcases h with h | ⟨inp, hin, hex⟩
      · exact absurd h hr
      · rcases List.mem_cons.mp hin with heq | hmem
        · left
          subst heq
          exact cycle_exit_running inp s hex
        · right
          exact ⟨inp, hmem, hex⟩

theorem turn_off_leds_out (s : State) :
    (turn_off_leds req_chip1 req_chip3 s).chip1_out = [(11, 0)] ∧
    (turn_off_leds req_chip1 req_chip3 s).chip3_out = [(14, 0), (13, 0), (4, 0)] :=
  ⟨rfl, rfl⟩

theorem render_idem (s : State) (hp : 0 ≤ s.current_led ∧ s.current_led ≤ 3) :
    render (render s) = render s := by
  obtain ⟨r1, r2, r3, r4, r5⟩ := render_frame s
  obtain ⟨q1, q2, q3, q4, q5⟩ := render_frame (render s)
  have hp2 : 0 ≤ (render s).current_led ∧ (render s).current_led ≤ 3 := by rw [r5]; exact hp
  obtain ⟨o1, o3⟩ := render_out s hp
  obtain ⟨p1, p3⟩ := render_out (render s) hp2
  obtain ⟨d1, d3⟩ := render_data s hp
  obtain ⟨e1, e3⟩ := render_data (render s) hp2
  apply State.ext
  · exact q1
  · exact q2
  · exact q3
  · exact q4
  · exact q5
  · rw [e1, d1, r5]
    funext j
    unfold setValue
    split <;> rfl
  · rw [e3, d3, r5]
    funext j
    dsimp only
    split <;> rfl
  · rw [p1, o1, r5]
  · rw [p3, o3, r5]

theorem render_ledValues (s : State) (hp : 0 ≤ s.current_led ∧ s.current_led ≤ 3) :
    ledValues (render s) = oneHot s.current_led ∧
    ledOffsets (render s) = [11, 14, 13, 4] ∧ (ledValues (render s)).count 1 = 1 := by
  obtain ⟨o1, o3⟩ := render_out s hp
  unfold ledValues ledOffsets
  rw [o1, o3]
  rcases led_cases hp with h | h | h | h <;> rw [h] <;> decide

theorem foldl_button_case_delayOk (presses : List Nat) (s : State) (h : DelayOk s.delay) :
    DelayOk (presses.foldl (fun t b => button_case b t) s).delay := by
  induction presses generalizing s with
  | nil => exact h
  | cons b rest ih => exact ih _ (button_case_delayOk b s h)

theorem sleepState_of_running (inp : CycleInput) (s : State) (hs : s.stop = 0) :
    sleepState inp s = render (check_buttons inp s) := by
  have hstop : (check_buttons inp s).stop = 0 := by
    rw [(check_buttons_frame inp s).1]; exact hs
  unfold sleepState
  dsimp only
  rw [if_pos hstop]

theorem cycle_current_led (inp : CycleInput) (s : State) (hs : s.stop = 0) :
    (cycle inp s).current_led = (advance (check_buttons inp s)).current_led := by
  have hstop : (check_buttons inp s).stop = 0 := by
    rw [(check_buttons_frame inp s).1]; exact hs
  unfold cycle
  dsimp only
  rw [if_pos hstop]
  have h : (advance (render (check_buttons inp s))).current_led =
      (advance (check_buttons inp s)).current_led := by
    obtain ⟨-, -, r3, -, r5⟩ := render_frame (check_buttons inp s)
    unfold advance
    dsimp only
    rw [r3, r5]
  split
  · exact h
  · exact h

theorem advance_moves (s : State) (hp : 0 ≤ s.current_led ∧ s.current_led ≤ 3)
    (hd : s.direction = 1 ∨ s.direction = -1) :
    (advance s).current_led ≠ s.current_led := by
  unfold advance
  rcases led_cases hp with h | h | h | h <;> rcases hd with d | d <;> rw [h, d] <;>
    dsimp only <;> decide

/-! ## The claims -/

/-- C1, counterexample: in the batch in which the exit button and the speed-up
button fire together, from the initial state, the loop of lines 150-177 sets
`running = 0` and then still halves `delay`, from 500000 to 250000. -/
theorem exit_precedence_counterexample :
    fired (pressed [0, 1]) 0 ∧ fired (pressed [0, 1]) 1 ∧
    (check_buttons (pressed [0, 1]) initState).running = 0 ∧
    initState.delay = 500000 ∧
    (check_buttons (pressed [0, 1]) initState).delay = 250000 := by
  decide

/-- C1, amended: for every state and every batch in which the exit button
(index 0) fired, applying the batch sets `running = 0` and leaves the position
and `stop` as they were; `delay` and `direction` are what the other fired
buttons of the batch make them, that is, what the same batch without the exit
event gives. -/
theorem exit_batch_applies_others (s : State) (inp : CycleInput) (h : fired inp 0) :
    (check_buttons inp s).running = 0 ∧
    (check_buttons inp s).current_led = s.current_led ∧
    (check_buttons inp s).stop = s.stop ∧
    (check_buttons inp s).delay = (check_buttons (withoutExit inp) s).delay ∧
    (check_buttons inp s).direction = (check_buttons (withoutExit inp) s).direction := by
  obtain ⟨f1, f2, -⟩ := check_buttons_frame inp s
  refine ⟨check_buttons_exit_running inp s h, f2, f1, ?_, ?_⟩
  · rw [check_buttons_exit inp s h]
  · rw [check_buttons_exit inp s h]

/-- C1, witness: the amended statement at the initial state and the batch of
exit and speed-up, where the delay is halved to 250000. -/
theorem exit_batch_applies_others_witness :
    fired (pressed [0, 1]) 0 ∧
    ((check_buttons (pressed [0, 1]) initState).running = 0 ∧
     (check_buttons (pressed [0, 1]) initState).current_led = initState.current_led ∧
     (check_buttons (pressed [0, 1]) initState).stop = initState.stop ∧
     (check_buttons (pressed [0, 1]) initState).delay =
       (check_buttons (withoutExit (pressed [0, 1])) initState).delay ∧
     (check_buttons (pressed [0, 1]) initState).direction =
       (check_buttons (withoutExit (pressed [0, 1])) initState).direction) ∧
    (check_buttons (withoutExit (pressed [0, 1])) initState).delay = 250000 :=
  ⟨by decide, exit_batch_applies_others initState (pressed [0, 1]) (by decide), by decide⟩

/-- C2: in every state the loop reaches from the initial state in which it is
running and not stopped, the state held during the sleep of the next cycle
(whatever the buttons of that cycle) has exactly one LED value at 1, the one
of the current position: position 0 is line 11 of the chip1 handle, positions
1, 2, 3 are lines 14, 13, 4 of the chip3 handle; the position is in `0..3` and
is the one the cycle started with. -/
theorem one_led_lit (inputs : List CycleInput) (inp : CycleInput)
    (hrun : (runLoop inputs initState).running ≠ 0)
    (hstop : (runLoop inputs initState).stop = 0) :
    (sleepState inp (runLoop inputs initState)).current_led =
      (runLoop inputs initState).current_led ∧
    (0 ≤ (runLoop inputs initState).current_led ∧ (runLoop inputs initState).current_led ≤ 3) ∧
    (sleepState inp (runLoop inputs initState)).chip1_out =
      [(11, if (runLoop inputs initState).current_led = 0 then 1 else 0)] ∧
    (sleepState inp (runLoop inputs initState)).chip3_out =
      [(14, if (runLoop inputs initState).current_led = 1 then 1 else 0),
       (13, if (runLoop inputs initState).current_led = 2 then 1 else 0),
       (4, if (runLoop inputs initState).current_led = 3 then 1 else 0)] ∧
    ledValues (sleepState inp (runLoop inputs initState)) =
      oneHot (runLoop inputs initState).current_led ∧
    (ledValues (sleepState inp (runLoop inputs initState))).count 1 = 1 := by
  have _ := hrun
  obtain ⟨-, -, hp, -⟩ := runLoop_inv inputs initState initState_inv
  obtain ⟨-, f2, -⟩ := check_buttons_frame inp (runLoop inputs initState)
  have hp1 : 0 ≤ (check_buttons inp (runLoop inputs initState)).current_led ∧
      (check_buttons inp (runLoop inputs initState)).current_led ≤ 3 := by rw [f2]; exact hp
  obtain ⟨o1, o3⟩ := render_out _ hp1
  obtain ⟨v1, -, v3⟩ := render_ledValues _ hp1
  rw [sleepState_of_running inp _ hstop]
  refine ⟨?_, hp, ?_, ?_, ?_, v3⟩
  · rw [(render_frame _).2.2.2.2, f2]
  · rw [o1, f2]; rfl
  · rw [o3, f2]; rfl
  · rw [v1, f2]

/-- C2, witness: from the initial state with no button events, LED1 (position
0) is the lit one. -/
theorem one_led_lit_witness :
    (runLoop [] initState).running ≠ 0 ∧ (runLoop [] initState).stop = 0 ∧
    ((sleepState noEvents (runLoop [] initState)).current_led =
       (runLoop [] initState).current_led ∧
     (0 ≤ (runLoop [] initState).current_led ∧ (runLoop [] initState).current_led ≤ 3) ∧
     (sleepState noEvents (runLoop [] initState)).chip1_out =
       [(11, if (runLoop [] initState).current_led = 0 then 1 else 0)] ∧
     (sleepState noEvents (runLoop [] initState)).chip3_out =
       [(14, if (runLoop [] initState).current_led = 1 then 1 else 0),
        (13, if (runLoop [] initState).current_led = 2 then 1 else 0),
        (4, if (runLoop [] initState).current_led = 3 then 1 else 0)] ∧
     ledValues (sleepState noEvents (runLoop [] initState)) =
       oneHot (runLoop [] initState).current_led ∧
     (ledValues (sleepState noEvents (runLoop [] initState))).count 1 = 1) ∧
    ledValues (sleepState noEvents initState) = [1, 0, 0, 0] :=
  ⟨by decide, by decide, one_led_lit [] noEvents (by decide) (by decide), by decide⟩

/-- C3: the delay is within `[31250, 500000]` in every state the loop reaches
from the initial state, also right after the buttons of a further batch were
applied, and after any finite sequence of button transitions applied to the
initial state; the doubling never wraps (the delay is one of 500000, 250000,
125000, 62500, 31250). -/
theorem delay_in_bounds (inputs : List CycleInput) (inp : CycleInput) (presses : List Nat) :
    (31250 ≤ (runLoop inputs initState).delay ∧ (runLoop inputs initState).delay ≤ 500000) ∧
    (31250 ≤ (check_buttons inp (runLoop inputs initState)).delay ∧
      (check_buttons inp (runLoop inputs initState)).delay ≤ 500000) ∧
    (31250 ≤ (presses.foldl (fun t b => button_case b t) initState).delay ∧
      (presses.foldl (fun t b => button_case b t) initState).delay ≤ 500000) ∧
    (runLoop inputs initState).delay ∈ [500000, 250000, 125000, 62500, 31250] := by
  have hinv := runLoop_inv inputs initState initState_inv
  have h1 := hinv.1
  have h2 := (check_buttons_inv inp _ hinv).1
  have h3 := foldl_button_case_delayOk presses initState initState_inv.1
  refine ⟨h1.bounds, h2.bounds, h3.bounds, ?_⟩
  rcases h1 with h | h | h | h | h <;> rw [h] <;> decide

/-- C4: for a position in `0..3` and a direction `+1` or `-1`, the advance of
line 203 gives `(p + d + 4) % 4`, which is in `0..3`; four advances in the same
direction return to the position; the reverse button negates the direction,
and reverse followed by one advance undoes the advance before it. -/
theorem advance_cyclic (s : State) (hp : 0 ≤ s.current_led ∧ s.current_led ≤ 3)
    (hd : s.direction = 1 ∨ s.direction = -1) :
    (advance s).current_led = (s.current_led + s.direction + 4) % 4 ∧
    (0 ≤ (advance s).current_led ∧ (advance s).current_led ≤ 3) ∧
    (advance (advance (advance (advance s)))).current_led = s.current_led ∧
    (advance (advance (advance (advance s)))).direction = s.direction ∧
    (button_case 3 s).direction = -s.direction ∧
    (button_case 3 s).current_led = s.current_led ∧
    (advance (button_case 3 (advance s))).current_led = s.current_led := by
  have hr := advance_range s hp hd
  obtain ⟨r, st, d, dl, p, b1, b3, o1, o3⟩ := s
  dsimp only at hp hd
  rcases led_cases hp with h | h | h | h <;> rcases hd with e | e <;> subst h <;> subst e <;>
    exact ⟨rfl, hr, rfl, rfl, rfl, rfl, rfl⟩

/-- C4, witness: position 2, direction forward; reverse pressed, the direction
is backward and the next advance gives position 1. -/
theorem advance_cyclic_witness :
    (0 ≤ (stateAt 2 1).current_led ∧ (stateAt 2 1).current_led ≤ 3) ∧
    ((stateAt 2 1).direction = 1 ∨ (stateAt 2 1).direction = -1) ∧
    ((advance (stateAt 2 1)).current_led =
       ((stateAt 2 1).current_led + (stateAt 2 1).direction + 4) % 4 ∧
     (0 ≤ (advance (stateAt 2 1)).current_led ∧ (advance (stateAt 2 1)).current_led ≤ 3) ∧
     (advance (advance (advance (advance (stateAt 2 1))))).current_led =
       (stateAt 2 1).current_led ∧
     (advance (advance (advance (advance (stateAt 2 1))))).direction =
       (stateAt 2 1).direction ∧
     (button_case 3 (stateAt 2 1)).direction = -(stateAt 2 1).direction ∧
     (button_case 3 (stateAt 2 1)).current_led = (stateAt 2 1).current_led ∧
     (advance (button_case 3 (advance (stateAt 2 1)))).current_led =
       (stateAt 2 1).current_led) ∧
    (button_case 3 (stateAt 2 1)).direction = -1 ∧
    (advance (button_case 3 (stateAt 2 1))).current_led = 1 :=
  ⟨by decide, by decide, advance_cyclic (stateAt 2 1) (by decide) (by decide), by decide,
    by decide⟩

/-- C5: whenever the loop has ended, from whatever state it was started and so
with whatever LED lit, `main` ends in a state in which `running = 0` and every
LED line of both handles is driven with 0; and the loop does end as soon as a
cycle sees the exit button or is interrupted by the signal. -/
theorem cleanup_all_off (inputs : List CycleInput) (s : State) :
    (∀ final, mainFrom inputs s = some final →
      final.running = 0 ∧ final.chip1_out = [(11, 0)] ∧
      final.chip3_out = [(14, 0), (13, 0), (4, 0)] ∧ ledValues final = [0, 0, 0, 0]) ∧
    ((s.running = 0 ∨ ∃ inp ∈ inputs, fired inp 0 ∨ inp.sigint = true) →
      ∃ final, mainFrom inputs s = some final) := by
  constructor
  · intro final h
    unfold mainFrom at h
    dsimp only at h
    split at h
    · rename_i hr
      cases h
      exact ⟨hr, rfl, rfl, rfl⟩
    · cases h
  · intro h
    unfold mainFrom
    dsimp only
    rw [if_pos (runLoop_exits inputs s h)]
    exact ⟨_, rfl⟩

/-- C5, witness: one cycle without events, then the exit button; the loop
ends with LED2 lit and `main` ends with all LEDs off. -/
theorem cleanup_all_off_witness :
    (∀ final, mainFrom [noEvents, pressed [0]] initState = some final →
      final.running = 0 ∧ final.chip1_out = [(11, 0)] ∧
      final.chip3_out = [(14, 0), (13, 0), (4, 0)] ∧ ledValues final = [0, 0, 0, 0]) ∧
    (∃ final, mainFrom [noEvents, pressed [0]] initState = some final) ∧
    ledValues (runLoop [noEvents, pressed [0]] initState) = [0, 1, 0, 0] :=
  ⟨(cleanup_all_off [noEvents, pressed [0]] initState).1,
   (cleanup_all_off [noEvents, pressed [0]] initState).2
     (Or.inr ⟨pressed [0], by simp, Or.inl (by decide)⟩),
   by decide⟩

/-- C6, counterexample: from the initial state, in the cycle in which the exit
button fires, `running` is 0 once the buttons are handled, and the cycle still
renders (LED1 is lit during its sleep, with `running = 0`) and still advances the
position from 0 to 1. -/
theorem exit_cycle_counterexample :
    fired (pressed [0]) 0 ∧
    (check_buttons (pressed [0]) initState).running = 0 ∧
    (sleepState (pressed [0]) initState).running = 0 ∧
    ledValues (sleepState (pressed [0]) initState) = [1, 0, 0, 0] ∧
    initState.current_led = 0 ∧
    (cycle (pressed [0]) initState).current_led = 1 ∧
    ledValues (cycle (pressed [0]) initState) = [1, 0, 0, 0] := by
  decide

/-- C6, amended: when the exit button fires in a cycle started in a state the
loop reaches while running, that cycle still renders the current position (one
LED lit during its sleep, with `running = 0`) and still advances the position;
no further cycle runs, whatever inputs follow, and `main` ends with all four
LEDs off. -/
theorem exit_cycle_then_off (inputs rest : List CycleInput) (inp : CycleInput)
    (hrun : (runLoop inputs initState).running ≠ 0) (h : fired inp 0) :
    (sleepState inp (runLoop inputs initState)).running = 0 ∧
    ledValues (sleepState inp (runLoop inputs initState)) =
      oneHot (runLoop inputs initState).current_led ∧
    (cycle inp (runLoop inputs initState)).current_led =
      (advance (check_buttons inp (runLoop inputs initState))).current_led ∧
    (cycle inp (runLoop inputs initState)).current_led ≠
      (runLoop inputs initState).current_led ∧
    runLoop (inp :: rest) (runLoop inputs initState) = cycle inp (runLoop inputs initState) ∧
    ∃ final, mainFrom (inp :: rest) (runLoop inputs initState) = some final ∧
      ledValues final = [0, 0, 0, 0] := by
  have hinv := runLoop_inv inputs initState initState_inv
  obtain ⟨-, -, hp, hs⟩ := hinv
  have hinv1 := check_buttons_inv inp _ (runLoop_inv inputs initState initState_inv)
  obtain ⟨-, hd1, hp1, -⟩ := hinv1
  obtain ⟨-, f2, -⟩ := check_buttons_frame inp (runLoop inputs initState)
  have hcyc := cycle_exit_running inp (runLoop inputs initState) (Or.inl h)
  have hloop : runLoop (inp :: rest) (runLoop inputs initState) =
      cycle inp (runLoop inputs initState) := by
    rw [runLoop, if_pos hrun, runLoop_of_not_running _ _ hcyc]
  refine ⟨?_, ?_, cycle_current_led inp _ hs, ?_, hloop, ?_⟩
  · rw [sleepState_of_running inp _ hs, (render_frame _).1]
    exact check_buttons_exit_running inp _ h
  · rw [sleepState_of_running inp _ hs, (render_ledValues _ hp1).1, f2]
  · rw [cycle_current_led inp _ hs, ← f2]
    exact advance_moves _ hp1 hd1
  · refine ⟨turn_off_leds req_chip1 req_chip3 (cycle inp (runLoop inputs initState)), ?_, rfl⟩
    unfold mainFrom
    dsimp only
    rw [hloop, if_pos hcyc]

/-- C6, witness: the exit button in the first cycle from the initial state. -/
theorem exit_cycle_then_off_witness :
    (runLoop [] initState).running ≠ 0 ∧ fired (pressed [0]) 0 ∧
    ((sleepState (pressed [0]) (runLoop [] initState)).running = 0 ∧
     ledValues (sleepState (pressed [0]) (runLoop [] initState)) =
       oneHot (runLoop [] initState).current_led ∧
     (cycle (pressed [0]) (runLoop [] initState)).current_led =
       (advance (check_buttons (pressed [0]) (runLoop [] initState))).current_led ∧
     (cycle (pressed [0]) (runLoop [] initState)).current_led ≠
       (runLoop [] initState).current_led ∧
     runLoop (pressed [0] :: [noEvents]) (runLoop [] initState) =
       cycle (pressed [0]) (runLoop [] initState) ∧
     ∃ final, mainFrom (pressed [0] :: [noEvents]) (runLoop [] initState) = some final ∧
       ledValues final = [0, 0, 0, 0]) :=
  ⟨by decide, by decide, exit_cycle_then_off [] [noEvents] (pressed [0]) (by decide) (by decide)⟩

/-- C7: from the initial state, after `k` cycles with a speed-up press each
(and equally after `k` applications of the speed-up case) the delay is
`max 31250 (500000 / 2 ^ k)`; it is never 15625; the first values are 500000,
250000, 125000, 62500, 31250, 31250. -/
theorem speed_up_presses (k : Nat) :
    (runLoop (List.replicate k (pressed [1])) initState).delay = max 31250 (500000 / 2 ^ k) ∧
    ((button_case 1)^[k] initState).delay = max 31250 (500000 / 2 ^ k) ∧
    (runLoop (List.replicate k (pressed [1])) initState).delay ≠ 15625 ∧
    (List.range 6).map (fun n => (runLoop (List.replicate n (pressed [1])) initState).delay) =
      [500000, 250000, 125000, 62500, 31250, 31250] := by
  have h1 : (runLoop (List.replicate k (pressed [1])) initState).delay =
      max 31250 (500000 / 2 ^ k) := by
    rw [runLoop_speed_up k initState (by decide) rfl]
    exact halveDelay_iterate k
  refine ⟨h1, ?_, ?_, by decide⟩
  · rw [iterate_button_case_one]
    exact halveDelay_iterate k
  · rw [h1]
    have : (31250 : Int) ≤ max 31250 (500000 / 2 ^ k) := le_max_left _ _
    omega

/-- C8, counterexample: from the initial state, button 1 is reported ready and
the read of its event fails (returns -1); the speed-up transition is applied
all the same (delay 250000), whereas a cycle without a press leaves the delay
at 500000. -/
theorem failed_read_counterexample :
    fired (failedRead 1) 1 ∧ (failedRead 1).read_ret 1 < 0 ∧
    (check_buttons (failedRead 1) initState).delay = 250000 ∧
    (check_buttons noEvents initState).delay = 500000 ∧
    (cycle (failedRead 1) initState).delay ≠ (cycle noEvents initState).delay := by
  decide

/-- C8, amended: when a button is reported ready and the read of its event
fails, the transition of that button is applied all the same: the loop step
for that button is the switch case of the button, and the state after the
buttons, and after the whole cycle, is the one obtained when every read
succeeds; the failure is not fatal: a button other than exit leaves `running`
as it was. -/
theorem failed_read_still_applies (s : State) (inp : CycleInput) (i : Nat)
    (hready : fired inp i) (hfail : inp.read_ret i < 0) :
    button_step inp s i = button_case i s ∧
    check_buttons inp s = check_buttons (readsOk inp) s ∧
    cycle inp s = cycle (readsOk inp) s ∧
    (i ≠ 0 → (button_step inp s i).running = s.running) := by
  have _ := hfail
  have hstep : button_step inp s i = button_case i s := by
    unfold button_step
    rw [if_pos hready.2]
  refine ⟨hstep, rfl, rfl, ?_⟩
  intro hi
  rw [hstep]
  exact button_case_running i hi s

/-- C8, witness: button 1 ready with a failed read, from the initial state;
the delay is halved to 250000. -/
theorem failed_read_still_applies_witness :
    fired (failedRead 1) 1 ∧ (failedRead 1).read_ret 1 < 0 ∧
    (button_step (failedRead 1) initState 1 = button_case 1 initState ∧
     check_buttons (failedRead 1) initState = check_buttons (readsOk (failedRead 1)) initState ∧
     cycle (failedRead 1) initState = cycle (readsOk (failedRead 1)) initState ∧
     (1 ≠ 0 → (button_step (failedRead 1) initState 1).running = initState.running)) ∧
    (button_case 1 initState).delay = 250000 :=
  ⟨by decide, by decide, failed_read_still_applies initState (failedRead 1) 1 (by decide)
    (by decide), by decide⟩

/-- C9: for every state of the lines (and of the buffers), `turn_off_leds`
twice is `turn_off_leds` once, with all four LED values 0; for every position
in `0..3` the render twice is the render once, with exactly the LED of the
position at 1. -/
theorem led_ops_idempotent (s : State) (hp : 0 ≤ s.current_led ∧ s.current_led ≤ 3) :
    turn_off_leds req_chip1 req_chip3 (turn_off_leds req_chip1 req_chip3 s) =
      turn_off_leds req_chip1 req_chip3 s ∧
    ledValues (turn_off_leds req_chip1 req_chip3 s) = [0, 0, 0, 0] ∧
    render (render s) = render s ∧
    ledValues (render s) = oneHot s.current_led ∧
    (ledValues (render s)).count 1 = 1 ∧
    ledValues (render (render s)) = ledValues (render s) := by
  obtain ⟨v1, -, v3⟩ := render_ledValues s hp
  exact ⟨rfl, rfl, render_idem s hp, v1, v3, by rw [render_idem s hp]⟩

/-- C9, witness: position 2, where the render gives the values 0, 0, 1, 0. -/
theorem led_ops_idempotent_witness :
    (0 ≤ (stateAt 2 1).current_led ∧ (stateAt 2 1).current_led ≤ 3) ∧
    (turn_off_leds req_chip1 req_chip3 (turn_off_leds req_chip1 req_chip3 (stateAt 2 1)) =
       turn_off_leds req_chip1 req_chip3 (stateAt 2 1) ∧
     ledValues (turn_off_leds req_chip1 req_chip3 (stateAt 2 1)) = [0, 0, 0, 0] ∧
     render (render (stateAt 2 1)) = render (stateAt 2 1) ∧
     ledValues (render (stateAt 2 1)) = oneHot (stateAt 2 1).current_led ∧
     (ledValues (render (stateAt 2 1))).count 1 = 1 ∧
     ledValues (render (render (stateAt 2 1))) = ledValues (render (stateAt 2 1))) ∧
    ledValues (render (stateAt 2 1)) = [0, 0, 1, 0] :=
  ⟨by decide, led_ops_idempotent (stateAt 2 1) (by decide), by decide⟩

/-- C10, counterexample: the delays 40000 and 300000 are within
`[31250, 500000]`; a speed-up press at 40000 gives 20000, which is below 31250
and is not `max 31250 (40000 / 2)`; a speed-down press at 300000 gives 600000,
which is above 500000 and is not `min 500000 (2 * 300000)`. -/
theorem speed_clamp_counterexample :
    (31250 ≤ (withDelay 40000).delay ∧ (withDelay 40000).delay ≤ 500000) ∧
    (withDelay 40000).delay > 31250 ∧
    (button_case 1 (withDelay 40000)).delay = 20000 ∧
    (button_case 1 (withDelay 40000)).delay ≠ max 31250 ((withDelay 40000).delay / 2) ∧
    (31250 ≤ (withDelay 300000).delay ∧ (withDelay 300000).delay ≤ 500000) ∧
    (withDelay 300000).delay < 500000 ∧
    (button_case 2 (withDelay 300000)).delay = 600000 ∧
    (button_case 2 (withDelay 300000)).delay ≠ min 500000 (2 * (withDelay 300000).delay) := by
  decide

/-- C10, amended: the speed transitions are guarded, they do not clamp: for
every delay `d` with `31250 ≤ d ≤ 500000` a speed-up press yields `d / 2` when
`d > 31250` and `d` otherwise, a speed-down press yields `2 * d` (no
wraparound) when `d < 500000` and `d` otherwise.  For the delays reachable from
500000 (500000, 250000, 125000, 62500, 31250) these are `max 31250 (d / 2)` and
`min 500000 (2 * d)`, and each transition gives a delay of that list again,
hence one in `[31250, 500000]`. -/
theorem speed_transitions (s : State) (h : 31250 ≤ s.delay ∧ s.delay ≤ 500000) :
    (button_case 1 s).delay = (if s.delay > 31250 then s.delay / 2 else s.delay) ∧
    (button_case 2 s).delay = (if s.delay < 500000 then 2 * s.delay else s.delay) ∧
    (s.delay ∈ [500000, 250000, 125000, 62500, 31250] →
      (button_case 1 s).delay = (if s.delay > 31250 then max 31250 (s.delay / 2) else s.delay) ∧
      (button_case 2 s).delay =
        (if s.delay < 500000 then min 500000 (2 * s.delay) else s.delay) ∧
      (button_case 1 s).delay ∈ [500000, 250000, 125000, 62500, 31250] ∧
      (button_case 2 s).delay ∈ [500000, 250000, 125000, 62500, 31250] ∧
      (31250 ≤ (button_case 1 s).delay ∧ (button_case 1 s).delay ≤ 500000) ∧
      (31250 ≤ (button_case 2 s).delay ∧ (button_case 2 s).delay ≤ 500000)) := by
  rw [button_case_one_delay, button_case_two_delay]
  unfold halveDelay doubleDelay MIN_DELAY MAX_DELAY
  refine ⟨?_, ?_, ?_⟩
  · split
    · exact Int.tdiv_eq_ediv (by omega) (by decide)
    · rfl
  · split
    · rw [wrap32_of_range _ (by omega) (by omega)]; omega
    · rfl
  · intro hmem
    simp only [List.mem_cons, List.mem_singleton, List.not_mem_nil, or_false] at hmem
    rcases hmem with e | e | e | e | e <;> rw [e] <;> decide

/-- C10, witness: the delay 250000, which a speed-up press halves to 125000
and a speed-down press doubles to 500000. -/
theorem speed_transitions_witness :
    (31250 ≤ (withDelay 250000).delay ∧ (withDelay 250000).delay ≤ 500000) ∧
    (withDelay 250000).delay ∈ [500000, 250000, 125000, 62500, 31250] ∧
    ((button_case 1 (withDelay 250000)).delay =
       (if (withDelay 250000).delay > 31250 then max 31250 ((withDelay 250000).delay / 2)
        else (withDelay 250000).delay) ∧
     (button_case 2 (withDelay 250000)).delay =
       (if (withDelay 250000).delay < 500000 then min 500000 (2 * (withDelay 250000).delay)
        else (withDelay 250000).delay) ∧
     (button_case 1 (withDelay 250000)).delay ∈ [500000, 250000, 125000, 62500, 31250] ∧
     (button_case 2 (withDelay 250000)).delay ∈ [500000, 250000, 125000, 62500, 31250] ∧
     (31250 ≤ (button_case 1 (withDelay 250000)).delay ∧
       (button_case 1 (withDelay 250000)).delay ≤ 500000) ∧
     (31250 ≤ (button_case 2 (withDelay 250000)).delay ∧
       (button_case 2 (withDelay 250000)).delay ≤ 500000)) ∧
    (button_case 1 (withDelay 250000)).delay = 125000 ∧
    (button_case 2 (withDelay 250000)).delay = 500000 :=
  ⟨by decide, by decide,
   (speed_transitions (withDelay 250000) (by decide)).2.2 (by decide), by decide, by decide⟩

end RunningLight
